import Mathlib

/-
Shallow embedding of the chatML gated-inference service and proofs about it.

The definitions below are transcribed from the repository sources:
  - rate limiting            : src/api/routes/service.py (_check_rate_limit, RATE_LIMITS)
  - the ranking model        : src/ml/model.py (TransHModel: _validate_input,
                               predict_similarity, _extract_top_entities, _safe_resolve)
  - the result cache         : src/core/redis_client.py (get_cached_results,
                               set_cached_results)
  - registration and login   : src/api/routes/session.py (register_user) and
                               src/core/database.py (create_user_in_db,
                               insert_api_key_in_db, get_api_key_info)
  - the request pipeline     : src/api/routes/service.py (similarity_service)

Modelling conventions, noted once here:
  - Redis and the two databases are modelled as in-memory association lists
    threaded through the functions as explicit state; a write conses a fresh
    binding and reads go through List.lookup / List.find?, so the newest
    binding wins, matching the key-value semantics of the backing stores.
  - Similarity scores are floats in the source; every claim about them
    concerns only their ordering, so they are modelled as integers.
  - torch.topk(scores, k=N, largest=False) returns all N scores in ascending
    order together with their entity indices; it is modelled as a stable merge
    sort of the (index, score) pairs by score.
  - Randomness (secrets.token_hex) and fallibility of the PostgreSQL insert
    are modelled by passing the generated key, and a Boolean success flag,
    as explicit parameters.
  - Python f-string error messages are reproduced without the quote
    characters around the interpolated values.
-/

namespace ChatML

deriving instance DecidableEq for Except

/- ### Rate limiter — src/api/routes/service.py -/

/-- Redis counter store: key to current counter value. -/
abbrev CounterStore := List (String × Nat)

/-- Redis INCR: create-at-1 or increment, returning the post-increment value. -/
def incr (store : CounterStore) (key : String) : CounterStore × Nat :=
  let count := (store.lookup key).getD 0 + 1
  ((key, count) :: store, count)

/-- RATE_LIMITS table from service.py: requests per minute by account type. -/
def RATE_LIMITS : List (String × Nat) := [("FREEMIUM", 5), ("PREMIUM", 50)]

/-- RATE_LIMITS.get(account_type, RATE_LIMITS["FREEMIUM"]). -/
def limitFor (account_type : String) : Nat :=
  (RATE_LIMITS.lookup account_type).getD ((RATE_LIMITS.lookup "FREEMIUM").getD 0)

/-- The composite Redis key f"usage:\x7bapi_key\x7d:\x7bcurrent_minute\x7d". -/
def usageKey (api_key : String) (window : Nat) : String :=
  "usage:" ++ api_key ++ ":" ++ toString window

/-- Outcome of the rate-limit check: allowed, or the 429 HTTPException raised. -/
inductive RateResult where
  | allowed
  | limited
deriving DecidableEq

/-- The _check_rate_limit helper: current_minute = int(time.time() // 60),
increment the usage counter, compare the post-increment count with the limit
for the account type.  The 60-second expiry set on the first request of a
window only garbage-collects the counter and is not part of the state that
any claim observes, so it is not modelled. -/
def _check_rate_limit (store : CounterStore) (api_key account_type : String)
    (now : Nat) : CounterStore × RateResult :=
  let redis_key := usageKey api_key (now / 60)
  let r := incr store redis_key
  let usage_count := r.2
  let limit := limitFor account_type
  if limit < usage_count then (r.1, .limited) else (r.1, .allowed)

/-- n sequential requests from the same api key in the same window, starting
from an empty counter store; returns the final store and the outcomes in
order. -/
def requestSeq (api_key account_type : String) (now : Nat) :
    Nat → CounterStore × List RateResult
  | 0 => ([], [])
  | n + 1 =>
    let p := requestSeq api_key account_type now n
    let q := _check_rate_limit p.1 api_key account_type now
    (q.1, p.2 ++ [q.2])

/- ### Ranker — src/ml/model.py -/

/-- The entity_input argument of predict_similarity: an int id, a str label,
or (reachable only by calling the model directly) any other type. -/
inductive EntityInput where
  | int (i : Int)
  | str (s : String)
  | other
deriving DecidableEq

/-- The ValueError / TypeError raised by _validate_input, tagged by the three
failure kinds of the spec and carrying the str(e) message. -/
inductive ValidationError where
  | entityNotAllowed (msg : String)
  | unknownEntityLabel (msg : String)
  | invalidEntityInputType (msg : String)
deriving DecidableEq

/-- str(e): the message carried by the raised error. -/
def ValidationError.message : ValidationError → String
  | .entityNotAllowed m => m
  | .unknownEntityLabel m => m
  | .invalidEntityInputType m => m

/-- The loaded TransHModel state: the entity label-to-index table and
index-to-label table of the TriplesFactory, the filtered candidate ids
heads_idx, and model.score_t as a function from (valid_id, relation_idx) to
the per-entity score vector. -/
structure TransHModel where
  entity_to_id : List (String × Nat)
  entity_id_to_label : Nat → String
  heads_idx : List Nat
  score_t : Nat → Nat → List Int

/-- TransHModel._validate_input: an int must already be in heads_idx; a str
is mapped through entity_to_id (KeyError becomes the not-found ValueError),
then must be in heads_idx; anything else raises TypeError. -/
def _validate_input (m : TransHModel) : EntityInput → Except ValidationError Nat
  | .int i =>
    if m.heads_idx.any (fun h => (h : Int) == i) then .ok i.toNat
    else .error (.entityNotAllowed
      ("ID " ++ toString i ++ " not found in heads_idx."))
  | .str s =>
    match m.entity_to_id.lookup s with
    | some e_id =>
      if e_id ∈ m.heads_idx then .ok e_id
      else .error (.entityNotAllowed
        ("Entity label " ++ s ++ " (ID " ++ toString e_id ++
          ") not allowed (not in heads_idx)."))
    | none => .error (.unknownEntityLabel
        ("Entity label " ++ s ++ " not found in TriplesFactory."))
  | .other => .error (.invalidEntityInputType
      "entity_input must be an integer (ID) or a string (label).")

/-- TransHModel._safe_resolve: heads_idx[index] if within range, else None. -/
def _safe_resolve (m : TransHModel) (index : Nat) : Option Nat :=
  m.heads_idx[index]?

/-- The loop body of _extract_top_entities: walk the (index, score) pairs in
ascending-score order, resolve each index through _safe_resolve, skip the
unresolved ones, append (label, score) for the resolved ones, and return as
soon as len(results) >= top_k. -/
def extractGo (m : TransHModel) (top_k : Nat) :
    List (Nat × Int) → List (String × Int) → List (String × Int)
  | [], results => results
  | (idx, val) :: rest, results =>
    match _safe_resolve m idx with
    | some resolved_id =>
      let results2 := results ++ [(m.entity_id_to_label resolved_id, val)]
      if top_k ≤ results2.length then results2
      else extractGo m top_k rest results2
    | none => extractGo m top_k rest results

/-- TransHModel._extract_top_entities on the single batch row produced by
score_t. -/
def _extract_top_entities (m : TransHModel) (pairs : List (Nat × Int))
    (top_k : Nat) : List (String × Int) :=
  extractGo m top_k pairs []

/-- torch.topk(scores, k=N, largest=False): every (entity index, score) pair
of the score vector, sorted by ascending score (a stable sort). -/
def sortedIndexScores (scores : List Int) : List (Nat × Int) :=
  List.insertionSort (fun a b => a.2 ≤ b.2) scores.enum

/-- TransHModel.predict_similarity: validate, score, sort ascending, project
onto the candidate set and bound by top_k.  A validation failure is caught
and returned as the sentinel [(str(e), -1.0)] — the in-band error encoding
that §9 of the specification flags. -/
def predict_similarity (m : TransHModel) (entity_input : EntityInput)
    (relation_idx : Nat := 5) (top_k : Nat := 10) : List (String × Int) :=
  match _validate_input m entity_input with
  | .error e => [(e.message, -1)]
  | .ok valid_id =>
    _extract_top_entities m
      (sortedIndexScores (m.score_t valid_id relation_idx)) top_k

/-- The entries of the ascending (index, score) walk that survive the
candidate-set projection, in order: the valid results the code can return. -/
def validEntries (m : TransHModel) (pairs : List (Nat × Int)) :
    List (String × Int) :=
  pairs.filterMap
    (fun p => (_safe_resolve m p.1).map
      (fun rid => (m.entity_id_to_label rid, p.2)))

/- ### Result cache — src/core/redis_client.py -/

/-- The response model of the /service route (src/api/schemas.py). -/
structure SimilarityResponse where
  cache : Bool
  result : List (String × Int)
deriving DecidableEq

/-- Redis keyed by the raw entity input value, holding the serialized result
list.  JSON round-tripping is value-preserving, so the stored value is the
list itself. -/
abbrev Cache := List (EntityInput × List (String × Int))

/-- get_cached_results: on a hit return the dict turned into a
SimilarityResponse with cache=True, else None. -/
def get_cached_results (c : Cache) (key : EntityInput) :
    Option SimilarityResponse :=
  (c.lookup key).map (fun data => { cache := true, result := data })

/-- set_cached_results: redis SET of the serialized results under the raw
input key. -/
def set_cached_results (c : Cache) (key : EntityInput)
    (results : List (String × Int)) : Cache :=
  (key, results) :: c

/- ### Credential store and key registry — src/core/database.py -/

/-- A MongoDB user document: email and the stored (hashed) password. -/
structure UserRecord where
  email : String
  password : String
deriving DecidableEq

/-- A PostgreSQL api_keys row. -/
structure ApiKeyRecord where
  api_key : String
  user_email : String
  account_type : String
deriving DecidableEq

/-- The two persistent stores threaded through registration. -/
structure DBState where
  users : List UserRecord
  api_keys : List ApiKeyRecord
deriving DecidableEq

/-- collection.find_one on the users collection. -/
def find_one (users : List UserRecord) (email : String) : Option UserRecord :=
  users.find? (fun u => u.email == email)

/-- create_user_in_db: insert the user unless one with the same email already
exists; returns the updated store and the success flag. -/
def create_user_in_db (db : DBState) (email password : String) :
    DBState × Bool :=
  match find_one db.users email with
  | some _ => (db, false)
  | none => ({ db with users := db.users ++ [⟨email, password⟩] }, true)

/-- Python substring containment pat in s, on character lists. -/
def leadsWith : List Char → List Char → Bool
  | [], _ => true
  | _ :: _, [] => false
  | p :: ps, c :: cs => p == c && leadsWith ps cs

/-- Python substring containment: CONDITION in user_email. -/
def containsSubstr (s pat : String) : Bool :=
  go pat.data s.data
where
  go (pat : List Char) : List Char → Bool
    | [] => pat.isEmpty
    | c :: cs => leadsWith pat (c :: cs) || go pat cs

/-- The CONDITION constant used for the tier policy. -/
def CONDITION : String := "gmail.com"

/-- The registration-time tier rule of insert_api_key_in_db. -/
def accountTypeFor (user_email : String) : String :=
  if containsSubstr user_email CONDITION then "PREMIUM" else "FREEMIUM"

/-- insert_api_key_in_db: the generated key (secrets.token_hex) is passed in
as new_api_key, and the possibility that the INSERT raises is the insertOk
flag; on success the row is stored and (api_key, account_type) returned, on
failure the function returns the empty string, modelled as none. -/
def insert_api_key_in_db (db : DBState) (user_email new_api_key : String)
    (insertOk : Bool) : DBState × Option (String × String) :=
  let account_type := accountTypeFor user_email
  if insertOk then
    ({ db with api_keys := db.api_keys ++ [⟨new_api_key, user_email, account_type⟩] },
      some (new_api_key, account_type))
  else (db, none)

/-- get_api_key_info: point lookup of the api_keys row by key. -/
def get_api_key_info (db : DBState) (api_key : String) : Option ApiKeyRecord :=
  db.api_keys.find? (fun r => r.api_key == api_key)

/- ### Registration — src/api/routes/session.py -/

/-- Outcome of POST /register: the APIKeyResponse, the 400 duplicate-user
HTTPException, or the IndexError raised by db_response[0] when
insert_api_key_in_db returned the empty string. -/
inductive RegisterOutcome where
  | ok (api_key account_type : String)
  | conflict
  | responseError
deriving DecidableEq

/-- register_user: hash the password (the hash is the passed-in hashed_pw),
create the user (400 on duplicate), insert the api key, and build the
APIKeyResponse from db_response — which raises if the insert failed. -/
def register_user (db : DBState) (email hashed_pw new_api_key : String)
    (insertOk : Bool) : DBState × RegisterOutcome :=
  let c := create_user_in_db db email hashed_pw
  if c.2 then
    let r := insert_api_key_in_db c.1 email new_api_key insertOk
    match r.2 with
    | some kt => (r.1, .ok kt.1 kt.2)
    | none => (r.1, .responseError)
  else (c.1, .conflict)

/- ### JWT verification -/

/-- The decoded JWT payload: subject email and expiry epoch seconds. -/
structure JwtPayload where
  sub : String
  exp : Nat
deriving DecidableEq

/-- A presented bearer token: a payload and the signature over it. -/
structure JwtToken where
  payload : JwtPayload
  sig : Nat
deriving DecidableEq

/-- What jwt.decode can do: return the payload, raise ExpiredSignatureError,
or raise InvalidTokenError. -/
inductive JwtOutcome where
  | payloadOk (p : JwtPayload)
  | expiredSignatureError
  | invalidTokenError
deriving DecidableEq

/-- Modelled from the spec: jwt.decode of the external PyJWT library, per the
AuthGate contract of §4.1 — the HMAC signature is verified against the
process secret first (failure raises InvalidTokenError), and only a token
with a valid signature is then checked for expiry (ExpiredSignatureError).
The HMAC itself is abstracted as the function mac. -/
def jwt_decode (mac : String → JwtPayload → Nat) (secret : String) (now : Nat)
    (t : JwtToken) : JwtOutcome :=
  if t.sig = mac secret t.payload then
    if t.payload.exp ≤ now then .expiredSignatureError
    else .payloadOk t.payload
  else .invalidTokenError

/- ### The /service request pipeline — src/api/routes/service.py -/

/-- The request body of POST /service (src/api/schemas.py). -/
structure SimilarityRequest where
  api_key : String
  entity_input : EntityInput
deriving DecidableEq

/-- What the route returns: a 200 SimilarityResponse or a raised
HTTPException with its status code and detail string. -/
inductive ServiceOutcome where
  | ok (resp : SimilarityResponse)
  | httpError (code : Nat) (detail : String)
deriving DecidableEq

/-- Steps 4 and 5 of the handler: check the cache, on a miss run
predict_similarity with the route defaults (relation_idx 5, top_k 10), store
the result, and answer with cache=False. -/
def cacheStage (m : TransHModel) (cache : Cache) (entity_input : EntityInput) :
    Cache × SimilarityResponse :=
  match get_cached_results cache entity_input with
  | some resp => (cache, resp)
  | none =>
    let probability := predict_similarity m entity_input 5 10
    (set_cached_results cache entity_input probability,
      { cache := false, result := probability })

/-- The similarity_service handler, top to bottom: JWT validation (a missing
or non-Bearer Authorization header is authHeader = none), API key presence,
key lookup with the defensive echoed-key equality check, rate limiting, then
the cache / inference stage.  Returns the final counter store, cache, and
outcome. -/
def similarity_service (secret : String) (mac : String → JwtPayload → Nat)
    (now : Nat) (db : DBState) (m : TransHModel) (store : CounterStore)
    (cache : Cache) (authHeader : Option JwtToken) (req : SimilarityRequest) :
    CounterStore × Cache × ServiceOutcome :=
  match authHeader with
  | none => (store, cache, .httpError 401 "JWT Token not provided.")
  | some token =>
    match jwt_decode mac secret now token with
    | .expiredSignatureError =>
      (store, cache, .httpError 401 "JWT Token has expired.")
    | .invalidTokenError =>
      (store, cache, .httpError 401 "Invalid JWT Token.")
    | .payloadOk _ =>
      if req.api_key = "" then
        (store, cache, .httpError 401 "API Key not provided.")
      else
        match get_api_key_info db req.api_key with
        | none => (store, cache, .httpError 401 "Invalid API Key.")
        | some info =>
          if info.api_key ≠ req.api_key then
            (store, cache, .httpError 401 "Invalid API Key.")
          else
            let account_type := info.account_type
            let rl := _check_rate_limit store req.api_key account_type now
            match rl.2 with
            | .limited =>
              (rl.1, cache,
                .httpError 429 "Rate limit exceeded. Please try again later.")
            | .allowed =>
              let cs := cacheStage m cache req.entity_input
              (rl.1, cs.1, .ok cs.2)

/- ### Concrete instances used by witnesses and counterexamples -/

/-- A small loaded model: three entities e0, e1, bad of which e0 and e1 are
candidate heads, and a constant score vector. -/
def demoModel : TransHModel :=
  { entity_to_id := [("e0", 0), ("e1", 1), ("bad", 2)]
    entity_id_to_label := fun i => (List.getD ["e0", "e1", "bad"] i "")
    heads_idx := [0, 1]
    score_t := fun _ _ => [3, 1, 2] }

/-- A concrete stand-in for the HMAC over (secret, payload). -/
def demoMac (secret : String) (p : JwtPayload) : Nat :=
  secret.length + p.exp + p.sub.length

/-- A payload whose expiry (100) has not passed at time 0. -/
def demoPayload : JwtPayload := { sub := "alice", exp := 100 }

/-- A correctly signed token for the secret "top". -/
def demoToken : JwtToken := { payload := demoPayload, sig := demoMac "top" demoPayload }

/-- The same payload with a signature that does not verify. -/
def demoBadToken : JwtToken :=
  { payload := demoPayload, sig := demoMac "top" demoPayload + 1 }

/-- A store with one registered user holding one FREEMIUM api key. -/
def demoDB : DBState :=
  { users := [{ email := "alice", password := "h" }]
    api_keys := [{ api_key := "key1", user_email := "alice", account_type := "FREEMIUM" }] }

/- ### Helper lemmas about the ranker -/

theorem validEntries_cons (m : TransHModel) (idx : Nat) (val : Int)
    (rest : List (Nat × Int)) :
    validEntries m ((idx, val) :: rest) =
      match _safe_resolve m idx with
      | some rid => (m.entity_id_to_label rid, val) :: validEntries m rest
      | none => validEntries m rest := by
  simp only [validEntries, List.filterMap_cons]
  cases _safe_resolve m idx <;> simp

theorem extractGo_eq_take (m : TransHModel) (top_k : Nat)
    (pairs : List (Nat × Int)) :
    ∀ acc : List (String × Int), acc.length < top_k →
      extractGo m top_k pairs acc =
        acc ++ (validEntries m pairs).take (top_k - acc.length) := by
  induction pairs with
  | nil => intro acc _; simp [extractGo, validEntries]
  | cons p rest ih =>
    intro acc h
    obtain ⟨idx, val⟩ := p
    cases hres : _safe_resolve m idx with
    | none =>
      simp only [extractGo, hres, validEntries_cons]
      exact ih acc h
    | some rid =>
      simp only [extractGo, hres, validEntries_cons]
      by_cases hk : top_k ≤ (acc ++ [(m.entity_id_to_label rid, val)]).length
      · rw [if_pos hk]
        have hlen : top_k - acc.length = 1 := by
          simp only [List.length_append, List.length_singleton] at hk; omega
        rw [hlen]
        simp
      · rw [if_neg hk]
        have hlt : (acc ++ [(m.entity_id_to_label rid, val)]).length < top_k := by
          omega
        rw [ih _ hlt]
        have hsub : top_k - acc.length = (top_k - (acc.length + 1)) + 1 := by
          simp only [List.length_append, List.length_singleton, not_le] at hk
          omega
        rw [hsub]
        simp [List.take_succ_cons]

theorem extractGo_mem (m : TransHModel) (top_k : Nat)
    (pairs : List (Nat × Int)) :
    ∀ (acc : List (String × Int)) (x : String × Int),
      x ∈ extractGo m top_k pairs acc → x ∈ acc ∨ x ∈ validEntries m pairs := by
  induction pairs with
  | nil => intro acc x hx; left; simpa [extractGo] using hx
  | cons p rest ih =>
    intro acc x hx
    obtain ⟨idx, val⟩ := p
    cases hres : _safe_resolve m idx with
    | none =>
      simp only [extractGo, hres] at hx
      rcases ih _ _ hx with h | h
      · exact Or.inl h
      · right; simp only [validEntries_cons, hres]; exact h
    | some rid =>
      simp only [extractGo, hres] at hx
      by_cases hk : top_k ≤ (acc ++ [(m.entity_id_to_label rid, val)]).length
      · rw [if_pos hk] at hx
        rcases List.mem_append.1 hx with h | h
        · exact Or.inl h
        · right
          simp only [List.mem_singleton] at h
          simp only [validEntries_cons, hres, h, List.mem_cons]
          exact Or.inl trivial
      · rw [if_neg hk] at hx
        rcases ih _ _ hx with h | h
        · rcases List.mem_append.1 h with h1 | h1
          · exact Or.inl h1
          · right
            simp only [List.mem_singleton] at h1
            simp only [validEntries_cons, hres, h1, List.mem_cons]
            exact Or.inl trivial
        · right
          simp only [validEntries_cons, hres, List.mem_cons]
          exact Or.inr h

theorem validEntries_map_snd_sublist (m : TransHModel)
    (pairs : List (Nat × Int)) :
    ((validEntries m pairs).map Prod.snd).Sublist (pairs.map Prod.snd) := by
  induction pairs with
  | nil => simp [validEntries]
  | cons p rest ih =>
    obtain ⟨idx, val⟩ := p
    cases hres : _safe_resolve m idx with
    | none =>
      rw [validEntries_cons]
      simp only [hres, List.map_cons]
      exact ih.cons _
    | some rid =>
      rw [validEntries_cons]
      simp only [hres, List.map_cons]
      exact ih.cons₂ _

theorem pairwise_sortedIndexScores (scores : List Int) :
    (sortedIndexScores scores).Pairwise (fun a b => a.2 ≤ b.2) := by
  haveI : IsTotal (Nat × Int) (fun a b => a.2 ≤ b.2) :=
    ⟨fun a b => le_total a.2 b.2⟩
  haveI : IsTrans (Nat × Int) (fun a b => a.2 ≤ b.2) :=
    ⟨fun _ _ _ => le_trans⟩
  exact List.sorted_insertionSort _ _

/- ### Helper lemmas about the rate limiter -/

theorem _check_rate_limit_fst (store : CounterStore) (k t : String) (now : Nat) :
    (_check_rate_limit store k t now).1 =
      (usageKey k (now / 60),
        (store.lookup (usageKey k (now / 60))).getD 0 + 1) :: store := by
  simp only [_check_rate_limit, incr]
  split <;> rfl

theorem _check_rate_limit_snd (store : CounterStore) (k t : String) (now : Nat) :
    (_check_rate_limit store k t now).2 =
      if (store.lookup (usageKey k (now / 60))).getD 0 + 1 ≤ limitFor t then
        RateResult.allowed
      else RateResult.limited := by
  simp only [_check_rate_limit, incr]
  rcases le_or_lt ((store.lookup (usageKey k (now / 60))).getD 0 + 1) (limitFor t)
    with h | h
  · rw [if_neg (by omega), if_pos h]
  · rw [if_pos h, if_neg (by omega)]

theorem requestSeq_count (k t : String) (now n : Nat) :
    ((requestSeq k t now n).1.lookup (usageKey k (now / 60))).getD 0 = n := by
  induction n with
  | zero => simp [requestSeq]
  | succ j ih =>
    simp only [requestSeq, _check_rate_limit_fst, ih, List.lookup_cons_self,
      Option.getD_some]

theorem requestSeq_results (k t : String) (now n : Nat) :
    (requestSeq k t now n).2 =
      (List.range n).map
        (fun i => if i + 1 ≤ limitFor t then RateResult.allowed
                  else RateResult.limited) := by
  induction n with
  | zero => simp [requestSeq]
  | succ j ih =>
    simp only [requestSeq, _check_rate_limit_snd, requestSeq_count, ih,
      List.range_succ, List.map_append, List.map_cons, List.map_nil]

/- ### Claim theorems -/

/-- C1: the rate limiter lets a request through exactly when the
post-increment counter stored under usage:apiKey:windowId (windowId =
now / 60) does not exceed the tier limit; the limit is 5 for FREEMIUM, 50
for PREMIUM and 5 for any unrecognized tier; hence in one window the first
limit requests for a key pass and all later ones are rejected with the 429
error. -/
theorem C1_rate_limit_behavior (api_key account_type : String)
    (now n : Nat) (store : CounterStore) :
    ((_check_rate_limit store api_key account_type now).2 = RateResult.allowed ↔
      (store.lookup (usageKey api_key (now / 60))).getD 0 + 1 ≤
        limitFor account_type)
    ∧ (_check_rate_limit store api_key account_type now).1.lookup
        (usageKey api_key (now / 60)) =
        some ((store.lookup (usageKey api_key (now / 60))).getD 0 + 1)
    ∧ limitFor "FREEMIUM" = 5 ∧ limitFor "PREMIUM" = 50
    ∧ (account_type ≠ "FREEMIUM" → account_type ≠ "PREMIUM" →
        limitFor account_type = 5)
    ∧ (requestSeq api_key account_type now n).2 =
        (List.range n).map
          (fun i => if i + 1 ≤ limitFor account_type then RateResult.allowed
                    else RateResult.limited) := by
  refine ⟨?_, ?_, by decide, by decide, ?_, requestSeq_results _ _ _ _⟩
  · rw [_check_rate_limit_snd]
    split <;> simp_all
  · rw [_check_rate_limit_fst]
    simp [List.lookup_cons_self]
  · intro h1 h2
    have b1 : (account_type == "FREEMIUM") = false := by
      simpa using h1
    have b2 : (account_type == "PREMIUM") = false := by
      simpa using h2
    simp [limitFor, RATE_LIMITS, List.lookup, b1, b2]

/-- C1 witness: six FREEMIUM requests in one window give five passes and
then a rejection, and an unrecognized tier gets the FREEMIUM limit 5. -/
theorem C1_rate_limit_behavior_witness :
    (requestSeq "k" "FREEMIUM" 0 6).2 =
      [RateResult.allowed, RateResult.allowed, RateResult.allowed,
        RateResult.allowed, RateResult.allowed, RateResult.limited]
    ∧ limitFor "GOLD" = 5 :=
  ⟨((C1_rate_limit_behavior "k" "FREEMIUM" 0 6 []).2.2.2.2.2).trans (by decide),
    (C1_rate_limit_behavior "k" "GOLD" 0 0 []).2.2.2.2.1 (by decide) (by decide)⟩

/-- C5: entity-input validation classifies every input — an integer outside
heads_idx raises the not-allowed error, an unknown string label raises the
unknown-label error, a known label whose id is outside heads_idx raises the
not-allowed error, any other input type raises the type error, and the
three failure kinds are mutually distinct. -/
theorem C5_validation_classification (m : TransHModel) :
    (∀ i : Int, (∀ h ∈ m.heads_idx, (h : Int) ≠ i) →
      _validate_input m (.int i) =
        .error (.entityNotAllowed
          ("ID " ++ toString i ++ " not found in heads_idx.")))
    ∧ (∀ s : String, m.entity_to_id.lookup s = none →
      _validate_input m (.str s) =
        .error (.unknownEntityLabel
          ("Entity label " ++ s ++ " not found in TriplesFactory.")))
    ∧ (∀ (s : String) (e_id : Nat), m.entity_to_id.lookup s = some e_id →
      e_id ∉ m.heads_idx →
      _validate_input m (.str s) =
        .error (.entityNotAllowed
          ("Entity label " ++ s ++ " (ID " ++ toString e_id ++
            ") not allowed (not in heads_idx).")))
    ∧ _validate_input m .other =
        .error (.invalidEntityInputType
          "entity_input must be an integer (ID) or a string (label).")
    ∧ (∀ a b c : String,
        ValidationError.entityNotAllowed a ≠ ValidationError.unknownEntityLabel b
        ∧ ValidationError.entityNotAllowed a ≠
            ValidationError.invalidEntityInputType c
        ∧ ValidationError.unknownEntityLabel b ≠
            ValidationError.invalidEntityInputType c) := by
  refine ⟨?_, ?_, ?_, rfl, ?_⟩
  · intro i hi
    have hany : m.heads_idx.any (fun h => (h : Int) == i) = false := by
      rw [List.any_eq_false]
      intro x hx
      simpa using hi x hx
    simp [_validate_input, hany]
  · intro s hs
    simp [_validate_input, hs]
  · intro s e_id hs hmem
    simp [_validate_input, hs, hmem]
  · intro a b c
    refine ⟨by simp, by simp, by simp⟩

/-- C5 witness: the four classifications evaluated on the demo model. -/
theorem C5_validation_classification_witness :
    _validate_input demoModel (.int 7) =
      .error (.entityNotAllowed
        ("ID " ++ toString (7 : Int) ++ " not found in heads_idx."))
    ∧ _validate_input demoModel (.str "nope") =
      .error (.unknownEntityLabel
        ("Entity label " ++ "nope" ++ " not found in TriplesFactory."))
    ∧ _validate_input demoModel (.str "bad") =
      .error (.entityNotAllowed
        ("Entity label " ++ "bad" ++ " (ID " ++ toString (2 : Nat) ++
          ") not allowed (not in heads_idx)."))
    ∧ _validate_input demoModel .other =
      .error (.invalidEntityInputType
        "entity_input must be an integer (ID) or a string (label).") :=
  ⟨(C5_validation_classification demoModel).1 7 (by decide),
    (C5_validation_classification demoModel).2.1 "nope" (by decide),
    (C5_validation_classification demoModel).2.2.1 "bad" 2 (by decide) (by decide),
    (C5_validation_classification demoModel).2.2.2.1⟩

/-- C4: at top_k = 0 a successful rank returns one entry, contradicting the
claimed length bound (and the docstring that top_k is the maximum number of
results); for every top_k at least 1, the returned sequence has exactly
min(topK, number of valid results of the candidate-set projection) entries
and its scores are ascending. -/
theorem C4_topk_length_and_order :
    (_validate_input demoModel (.int 0) = Except.ok 0
      ∧ (predict_similarity demoModel (.int 0) 5 0).length = 1)
    ∧ ∀ (m : TransHModel) (input : EntityInput) (vid relation_idx top_k : Nat),
        _validate_input m input = .ok vid → 1 ≤ top_k →
        (predict_similarity m input relation_idx top_k).length =
            min top_k
              (validEntries m
                (sortedIndexScores (m.score_t vid relation_idx))).length
          ∧ ((predict_similarity m input relation_idx top_k).map Prod.snd).Pairwise
              (fun a b => a ≤ b) := by
  constructor
  · exact ⟨by decide, by decide⟩
  · intro m input vid relation_idx top_k hv hk
    have hchar : predict_similarity m input relation_idx top_k =
        (validEntries m
          (sortedIndexScores (m.score_t vid relation_idx))).take top_k := by
      simp only [predict_similarity, hv, _extract_top_entities]
      rw [extractGo_eq_take m top_k _ [] (by simpa using hk)]
      simp
    constructor
    · rw [hchar, List.length_take]
    · rw [hchar]
      have hsub :
          (((validEntries m
              (sortedIndexScores (m.score_t vid relation_idx))).take top_k).map
            Prod.snd).Sublist
            ((sortedIndexScores (m.score_t vid relation_idx)).map Prod.snd) :=
        ((List.take_sublist _ _).map Prod.snd).trans
          (validEntries_map_snd_sublist m _)
      have hpw : ((sortedIndexScores (m.score_t vid relation_idx)).map
          Prod.snd).Pairwise (fun a b => a ≤ b) := by
        rw [List.pairwise_map]
        exact pairwise_sortedIndexScores _
      exact List.Pairwise.sublist hsub hpw

/-- C4 witness: the amended bound evaluated at the route default top_k = 10
on the demo model. -/
theorem C4_topk_length_and_order_witness :
    (predict_similarity demoModel (.int 0) 5 10).length =
        min 10
          (validEntries demoModel
            (sortedIndexScores (demoModel.score_t 0 5))).length
      ∧ ((predict_similarity demoModel (.int 0) 5 10).map Prod.snd).Pairwise
          (fun a b => a ≤ b) :=
  C4_topk_length_and_order.2 demoModel (.int 0) 0 5 10 (by decide) (by decide)

/-- C9: every entry of a successful rank result is labelled by a
candidate-set entity — its resolved id is an element of heads_idx, and
positions falling outside the heads_idx table are skipped, never
returned. -/
theorem C9_results_from_candidate_set (m : TransHModel) (input : EntityInput)
    (vid relation_idx top_k : Nat) (hv : _validate_input m input = .ok vid) :
    ∀ entry ∈ predict_similarity m input relation_idx top_k,
      ∃ rid ∈ m.heads_idx, entry.1 = m.entity_id_to_label rid := by
  intro entry hmem
  simp only [predict_similarity, hv, _extract_top_entities] at hmem
  rcases extractGo_mem m top_k _ [] entry hmem with h | h
  · simp at h
  · rcases List.mem_filterMap.1 h with ⟨⟨idx, val⟩, _, hf⟩
    rcases Option.map_eq_some'.1 hf with ⟨rid, hres, hentry⟩
    exact ⟨rid, List.getElem?_mem hres, by rw [← hentry]⟩

/-- C9 witness: the top entry for entity 0 of the demo model is labelled by
a member of heads_idx. -/
theorem C9_results_from_candidate_set_witness :
    ∃ rid ∈ demoModel.heads_idx,
      (("e1", (1 : Int)) : String × Int).1 = demoModel.entity_id_to_label rid :=
  C9_results_from_candidate_set demoModel (.int 0) 0 5 10 (by decide)
    ("e1", 1) (by decide)

/-- C2: with valid token, key and quota, an unknown entity label flows
through the pipeline as a 200-OK response whose result list embeds the
validation failure as the sentinel (message, -1) pair — the failure is not
surfaced as a typed error, refuting the claimed failure policy. -/
theorem C2_sentinel_error_encoding :
    (similarity_service "top" demoMac 0 demoDB demoModel [] []
        (some demoToken)
        { api_key := "key1", entity_input := .str "nope" }).2.2 =
      ServiceOutcome.ok
        { cache := false,
          result := [("Entity label nope not found in TriplesFactory.", -1)] } := by
  decide

/-- C3: the same failing request writes its sentinel result into the cache,
so a failed ranking does create a cache entry for its input, refuting the
claimed created-only-on-success invariant. -/
theorem C3_failed_ranking_creates_cache_entry :
    ((similarity_service "top" demoMac 0 demoDB demoModel [] []
        (some demoToken)
        { api_key := "key1", entity_input := .str "nope" }).2.1).lookup
        (EntityInput.str "nope") =
      some [("Entity label nope not found in TriplesFactory.", -1)] := by
  decide

/-- C6: after a first successful call, a second pass through the cache stage
with the same raw input answers cache=true with the identical result
sequence. -/
theorem C6_second_call_returns_cached (m : TransHModel) (cache : Cache)
    (input : EntityInput) (vid : Nat)
    (_hfirst : _validate_input m input = .ok vid) :
    (cacheStage m (cacheStage m cache input).1 input).2.cache = true
    ∧ (cacheStage m (cacheStage m cache input).1 input).2.result =
        (cacheStage m cache input).2.result := by
  cases hc : cache.lookup input with
  | some data => simp [cacheStage, get_cached_results, hc]
  | none =>
    simp [cacheStage, get_cached_results, hc, set_cached_results,
      List.lookup_cons_self]

/-- C6 witness: two calls for entity 0 on the demo model with an empty
cache. -/
theorem C6_second_call_returns_cached_witness :
    (cacheStage demoModel (cacheStage demoModel [] (.int 0)).1 (.int 0)).2.cache =
        true
    ∧ (cacheStage demoModel (cacheStage demoModel [] (.int 0)).1 (.int 0)).2.result =
        (cacheStage demoModel [] (.int 0)).2.result :=
  C6_second_call_returns_cached demoModel [] (.int 0) 0 (by decide)

/- ### Helper lemmas about registration -/

theorem find_one_append_self (l : List UserRecord) (email pw : String)
    (h : find_one l email = none) :
    find_one (l ++ [(⟨email, pw⟩ : UserRecord)]) email =
      some ⟨email, pw⟩ := by
  unfold find_one at h ⊢
  rw [List.find?_append, h]
  simp [List.find?]

/-- C7: registering the same email twice — the first call succeeds with the
freshly generated key and stores the credential and key records; the second
call fails with the 400 conflict and leaves the stores exactly as the first
call left them. -/
theorem C7_duplicate_registration (db : DBState) (email pw1 pw2 k1 k2 : String)
    (hnew : find_one db.users email = none) :
    (register_user db email pw1 k1 true).2 =
        RegisterOutcome.ok k1 (accountTypeFor email)
    ∧ find_one (register_user db email pw1 k1 true).1.users email =
        some ⟨email, pw1⟩
    ∧ (register_user db email pw1 k1 true).1.api_keys =
        db.api_keys ++ [⟨k1, email, accountTypeFor email⟩]
    ∧ (register_user (register_user db email pw1 k1 true).1 email pw2 k2 true).2 =
        RegisterOutcome.conflict
    ∧ (register_user (register_user db email pw1 k1 true).1 email pw2 k2 true).1 =
        (register_user db email pw1 k1 true).1 := by
  have h1 : create_user_in_db db email pw1 =
      ({ db with users := db.users ++ [⟨email, pw1⟩] }, true) := by
    simp [create_user_in_db, hnew]
  have hreg1 : register_user db email pw1 k1 true =
      ({ users := db.users ++ [⟨email, pw1⟩],
         api_keys := db.api_keys ++ [⟨k1, email, accountTypeFor email⟩] },
        RegisterOutcome.ok k1 (accountTypeFor email)) := by
    simp [register_user, h1, insert_api_key_in_db]
  have hfind : find_one (db.users ++ [(⟨email, pw1⟩ : UserRecord)]) email =
      some ⟨email, pw1⟩ := find_one_append_self db.users email pw1 hnew
  have hreg2 : register_user (register_user db email pw1 k1 true).1 email pw2 k2
      true = ((register_user db email pw1 k1 true).1, RegisterOutcome.conflict) := by
    rw [hreg1]
    simp [register_user, create_user_in_db, hfind]
  refine ⟨by rw [hreg1], ?_, by rw [hreg1], by rw [hreg2], by rw [hreg2]⟩
  rw [hreg1]
  exact hfind

/-- C7 witness: a concrete double registration on empty stores. -/
theorem C7_duplicate_registration_witness :
    (register_user ⟨[], []⟩ "bob@gmail.com" "pw" "K" true).2 =
        RegisterOutcome.ok "K" "PREMIUM"
    ∧ (register_user (register_user ⟨[], []⟩ "bob@gmail.com" "pw" "K" true).1
        "bob@gmail.com" "pw2" "K2" true).2 = RegisterOutcome.conflict := by
  have h := C7_duplicate_registration ⟨[], []⟩ "bob@gmail.com" "pw" "pw2" "K" "K2"
    (by decide)
  exact ⟨h.1.trans (by decide), h.2.2.2.1⟩

/-- C8: a bearer token whose signature does not verify against the process
secret is rejected with the 401 Invalid JWT Token error, whatever expiry the
payload claims, and no state is touched. -/
theorem C8_tampered_signature_rejected (mac : String → JwtPayload → Nat)
    (secret : String) (now : Nat) (db : DBState) (m : TransHModel)
    (store : CounterStore) (cache : Cache) (t : JwtToken)
    (req : SimilarityRequest) (h : t.sig ≠ mac secret t.payload) :
    similarity_service secret mac now db m store cache (some t) req =
      (store, cache, .httpError 401 "Invalid JWT Token.") := by
  simp [similarity_service, jwt_decode, h]

/-- C8 witness: the demo token with an altered signature and a far-future
expiry is rejected as invalid. -/
theorem C8_tampered_signature_rejected_witness :
    similarity_service "top" demoMac 0 demoDB demoModel [] []
        (some demoBadToken) { api_key := "key1", entity_input := .int 0 } =
      ([], [], .httpError 401 "Invalid JWT Token.") :=
  C8_tampered_signature_rejected demoMac "top" 0 demoDB demoModel [] []
    demoBadToken { api_key := "key1", entity_input := .int 0 } (by decide)

/-- C10: when the api-key insert fails after the credential was stored,
building the response fails, the credential persists with no key record
added, and a later retry for the same email fails with the duplicate-user
error while the account still has no api key. -/
theorem C10_registration_not_atomic (db : DBState) (email pw pw2 k k2 : String)
    (hnew : find_one db.users email = none)
    (hnokey : db.api_keys.find? (fun r => r.user_email == email) = none) :
    (register_user db email pw k false).2 = RegisterOutcome.responseError
    ∧ find_one (register_user db email pw k false).1.users email =
        some ⟨email, pw⟩
    ∧ (register_user db email pw k false).1.api_keys = db.api_keys
    ∧ (register_user (register_user db email pw k false).1 email pw2 k2 true).2 =
        RegisterOutcome.conflict
    ∧ (register_user (register_user db email pw k false).1 email pw2 k2
        true).1.api_keys.find? (fun r => r.user_email == email) = none := by
  have h1 : create_user_in_db db email pw =
      ({ db with users := db.users ++ [⟨email, pw⟩] }, true) := by
    simp [create_user_in_db, hnew]
  have hreg1 : register_user db email pw k false =
      ({ users := db.users ++ [⟨email, pw⟩], api_keys := db.api_keys },
        RegisterOutcome.responseError) := by
    simp [register_user, h1, insert_api_key_in_db]
  have hfind : find_one (db.users ++ [(⟨email, pw⟩ : UserRecord)]) email =
      some ⟨email, pw⟩ := find_one_append_self db.users email pw hnew
  have hreg2 : register_user (register_user db email pw k false).1 email pw2 k2
      true = ((register_user db email pw k false).1, RegisterOutcome.conflict) := by
    rw [hreg1]
    simp [register_user, create_user_in_db, hfind]
  refine ⟨by rw [hreg1], ?_, by rw [hreg1], by rw [hreg2], ?_⟩
  · rw [hreg1]
    exact hfind
  · rw [hreg2, hreg1]
    exact hnokey

/-- C10 witness: a concrete failed-insert registration and retry on empty
stores. -/
theorem C10_registration_not_atomic_witness :
    (register_user ⟨[], []⟩ "bob" "pw" "K" false).2 =
        RegisterOutcome.responseError
    ∧ (register_user (register_user ⟨[], []⟩ "bob" "pw" "K" false).1 "bob"
        "pw2" "K2" true).2 = RegisterOutcome.conflict := by
  have h := C10_registration_not_atomic ⟨[], []⟩ "bob" "pw" "pw2" "K" "K2"
    (by decide) (by decide)
  exact ⟨h.1, h.2.2.2.1⟩

end ChatML
